import Mathlib

/-!
Verification of the adaptive Jira integration layer (`mcp_atlassian.jira`)
against its natural-language specification.

Shallow embedding conventions:
* Python strings are embedded as `List Char`; string literals from the
  source appear as `("...".toList)`.
* Python `dict`s with string keys are embedded as association lists with
  insertion order preserved and in-place overwrite on re-assignment,
  mirroring CPython dict semantics.
* A raised exception is an `Except.error`; fallible upstream calls are
  fields of an explicit "upstream" record so that call counts and call
  order are visible in the embedding.
* Machine integers do not overflow in any of the embedded code paths
  (status codes, seconds), so `Nat`/`Int` are used directly.
-/

/-- Case-fold a string the way CPython `str.lower` does on the ASCII
range (all embedded source literals are ASCII). -/
def lowerChars (s : List Char) : List Char :=
  s.map Char.toLower

/-- Substring test, embedding the Python `needle in hay` test on strings:
true iff `needle` occurs contiguously inside `hay`. -/
def containsSub (hay needle : List Char) : Bool :=
  match hay with
  | [] => needle.isEmpty
  | _ :: t => needle.isPrefixOf hay || containsSub t needle

/-- CPython `str.capitalize`: first character upper-cased, the rest
lower-cased. -/
def pyCapitalize (s : List Char) : List Char :=
  match s with
  | [] => []
  | c :: t => Char.toUpper c :: lowerChars t

/-- A raw transport failure as seen by `JiraClient._handle_error`:
the exception's string form, its optional `status_code` attribute and its
optional `response` attribute.  (In the source, an attribute that is
present but `None` behaves identically to an absent attribute, so a
single `Option` field is a faithful embedding.) -/
structure Failure where
  message : List Char
  statusCode : Option Int
  response : Option (List Char)
deriving DecidableEq, Repr

/-- The error taxonomy of `mcp_atlassian.jira.exceptions`: the four
exception classes `_handle_error` can raise, plus `issueType`
(`JiraIssueTypeError`, raised by the epic operations).  `apiError` is
the generic catch-all `JiraAPIError`. -/
inductive EKind where
  | authentication
  | permission
  | notFound
  | apiError
  | issueType
deriving DecidableEq, Repr

/-- A typed error as raised by `_handle_error`: one of the
`JiraAPIError` subclasses, which carry a message, the original status
code and the raw response payload (`exceptions.py`, `JiraAPIError`). -/
structure JiraError where
  kind : EKind
  message : List Char
  statusCode : Option Int
  response : Option (List Char)
deriving DecidableEq, Repr

/-- Embedding of `JiraClient._handle_error` (`client.py` lines 110-173).
The source always raises exactly one of the four typed exceptions; the
embedding therefore returns the raised `JiraError` as a total function.
The branch structure mirrors the source: the status-code tests 401/403/404
first, then the lower-cased-message substring tests, then the generic
fallback.  Message formats are the source's f-strings flattened to
concatenation. -/
def handle_error (e : Failure) (resource_type resource_id : List Char) : JiraError :=
  let error_message := e.message
  let status_code := e.statusCode
  if status_code = some 401 then
    ⟨.authentication,
      ("Authentication failed for ".toList) ++ resource_type ++ (": ".toList) ++ error_message,
      status_code, e.response⟩
  else if status_code = some 403 then
    ⟨.permission,
      ("Permission denied for ".toList) ++ resource_type ++ (" ".toList) ++ resource_id
        ++ (": ".toList) ++ error_message,
      status_code, e.response⟩
  else if status_code = some 404 then
    ⟨.notFound,
      pyCapitalize resource_type ++ (" ".toList) ++ resource_id ++ (" not found: ".toList)
        ++ error_message,
      status_code, e.response⟩
  else if containsSub (lowerChars error_message) ("authentication".toList)
      || containsSub (lowerChars error_message) ("unauthorized".toList) then
    ⟨.authentication,
      ("Authentication failed for ".toList) ++ resource_type ++ (": ".toList) ++ error_message,
      status_code, e.response⟩
  else if containsSub (lowerChars error_message) ("permission".toList)
      || containsSub (lowerChars error_message) ("access".toList) then
    ⟨.permission,
      ("Permission denied for ".toList) ++ resource_type ++ (" ".toList) ++ resource_id
        ++ (": ".toList) ++ error_message,
      status_code, e.response⟩
  else if containsSub (lowerChars error_message) ("not found".toList)
      || containsSub (lowerChars error_message) ("does not exist".toList) then
    ⟨.notFound,
      pyCapitalize resource_type ++ (" ".toList) ++ resource_id ++ (" not found: ".toList)
        ++ error_message,
      status_code, e.response⟩
  else
    ⟨.apiError,
      ("Error accessing ".toList) ++ resource_type ++ (" ".toList) ++ resource_id
        ++ (": ".toList) ++ error_message,
      status_code, e.response⟩

/-- The message-substring classification step of the spec's priority
algorithm (spec section 4.1, steps 2-3), written from the spec's words:
substring of the lower-cased message decides the kind, `Generic`
(`apiError`) otherwise. -/
def messageKind (msg : List Char) : EKind :=
  if containsSub (lowerChars msg) ("authentication".toList)
      || containsSub (lowerChars msg) ("unauthorized".toList) then .authentication
  else if containsSub (lowerChars msg) ("permission".toList)
      || containsSub (lowerChars msg) ("access".toList) then .permission
  else if containsSub (lowerChars msg) ("not found".toList)
      || containsSub (lowerChars msg) ("does not exist".toList) then .notFound
  else .apiError

/-- The full priority algorithm of the claim (spec section 4.1), written
from the spec's words: a present status code of 401/403/404 decides the
kind first; otherwise the lower-cased message is inspected. -/
def specClassifyKind (e : Failure) : EKind :=
  if e.statusCode = some 401 then .authentication
  else if e.statusCode = some 403 then .permission
  else if e.statusCode = some 404 then .notFound
  else messageKind e.message

/-- C1: for every failure passed to `_handle_error`, exactly one typed
error is produced (the embedding is a total function into `JiraError`),
and its kind is exactly the one chosen by the spec's priority algorithm:
status 401/403/404 first (with any message), then the lower-cased-message
substring rules, then `Generic`. -/
theorem claim1_error_mapper_priority (e : Failure) (rt rid : List Char) :
    (handle_error e rt rid).kind = specClassifyKind e := by
  unfold handle_error specClassifyKind messageKind
  by_cases h1 : e.statusCode = some 401 <;>
    by_cases h2 : e.statusCode = some 403 <;>
      by_cases h3 : e.statusCode = some 404 <;>
        (first
          | (simp [h1, h2, h3]; split_ifs <;> rfl)
          | simp [h1, h2, h3])

/-- C10: when a status code is present but is none of 401, 403, 404, the
mapper ignores it for classification and falls through to the
message-substring rules, while still carrying the original status code on
the produced error. -/
theorem claim10_status_fallthrough (e : Failure) (rt rid : List Char) (c : Int)
    (hc : e.statusCode = some c) (h1 : c ≠ 401) (h2 : c ≠ 403) (h3 : c ≠ 404) :
    (handle_error e rt rid).kind = messageKind e.message
      ∧ (handle_error e rt rid).statusCode = some c := by
  have k1 : e.statusCode ≠ some 401 := by simp [hc, h1]
  have k2 : e.statusCode ≠ some 403 := by simp [hc, h2]
  have k3 : e.statusCode ≠ some 404 := by simp [hc, h3]
  constructor
  · unfold handle_error messageKind
    simp only [k1, k2, k3, if_false]
    split_ifs <;> rfl
  · unfold handle_error
    simp only [k1, k2, k3, if_false]
    split_ifs <;> simp [hc]

/-- C10 witness: a status-500 failure whose message contains "access"
is classified as the Permission kind and carries status code 500. -/
theorem claim10_status_fallthrough_witness :
    (handle_error ⟨("no access to resource".toList), some 500, none⟩
        ("issue".toList) ("ABC-1".toList)).kind = EKind.permission
      ∧ (handle_error ⟨("no access to resource".toList), some 500, none⟩
        ("issue".toList) ("ABC-1".toList)).statusCode = some 500 := by
  have h := claim10_status_fallthrough
    ⟨("no access to resource".toList), some 500, none⟩
    ("issue".toList) ("ABC-1".toList) 500 rfl (by decide) (by decide) (by decide)
  exact ⟨h.1.trans (by decide), h.2⟩

/-- C9 counterexample: the claim states every produced error carries the
message format "{ResourceType} {resourceId}: {original message}".  For a
generic failure on resource type "issue", id "ABC-1", message "boom", the
mapper actually produces "Error accessing issue ABC-1: boom", which
matches neither casing of the claimed template. -/
theorem claim9_counterexample :
    (handle_error ⟨("boom".toList), none, none⟩ ("issue".toList) ("ABC-1".toList)).message
        ≠ ("issue ABC-1: boom".toList)
      ∧ (handle_error ⟨("boom".toList), none, none⟩ ("issue".toList) ("ABC-1".toList)).message
        ≠ ("Issue ABC-1: boom".toList)
      ∧ (handle_error ⟨("boom".toList), none, none⟩ ("issue".toList) ("ABC-1".toList)).message
        = ("Error accessing issue ABC-1: boom".toList) := by
  refine ⟨by decide, by decide, by decide⟩

/-- Helper: the trivial decomposition of a list as a prefix plus itself. -/
theorem tailEx_refl {α} (m : List α) : ∃ p, m = p ++ m :=
  ⟨[], rfl⟩

/-- Helper: prepending one element preserves having `m` as a tail. -/
theorem tailEx_cons {α} (c : α) (l m : List α) (h : ∃ p, l = p ++ m) :
    ∃ p, c :: l = p ++ m := by
  obtain ⟨p, hp⟩ := h
  exact ⟨c :: p, by simp [hp]⟩

/-- Helper: prepending a list preserves having `m` as a tail. -/
theorem tailEx_append {α} (l₀ l m : List α) (h : ∃ p, l = p ++ m) :
    ∃ p, l₀ ++ l = p ++ m := by
  obtain ⟨p, hp⟩ := h
  exact ⟨l₀ ++ p, by simp [hp]⟩

/-- Helper: every branch of `_handle_error` formats its message as a
branch-specific prefix followed by the original message. -/
theorem handle_error_message_tail (e : Failure) (rt rid : List Char) :
    ∃ pre, (handle_error e rt rid).message = pre ++ e.message := by
  unfold handle_error
  dsimp only
  split_ifs <;>
    (repeat
      first
        | exact tailEx_refl _
        | apply tailEx_cons
        | apply tailEx_append)

/-- The four message templates of `_handle_error`, one per produced
kind (`client.py` lines 129-173): Authentication
"Authentication failed for {type}: {msg}", Permission
"Permission denied for {type} {id}: {msg}", NotFound
"{Type} {id} not found: {msg}", Generic
"Error accessing {type} {id}: {msg}".  (`issueType` is never produced
by the mapper; it shares the generic template here for totality.) -/
def errMsgTemplate (k : EKind) (rt rid msg : List Char) : List Char :=
  match k with
  | .authentication => ("Authentication failed for ".toList) ++ rt ++ (": ".toList) ++ msg
  | .permission =>
    ("Permission denied for ".toList) ++ rt ++ (" ".toList) ++ rid ++ (": ".toList) ++ msg
  | .notFound =>
    pyCapitalize rt ++ (" ".toList) ++ rid ++ (" not found: ".toList) ++ msg
  | _ => ("Error accessing ".toList) ++ rt ++ (" ".toList) ++ rid ++ (": ".toList) ++ msg

/-- C9 amended: every typed error produced by the mapper carries
exactly the kind-specific formatted message of its kind — Authentication
"Authentication failed for {type}: {msg}", Permission
"Permission denied for {type} {id}: {msg}", NotFound
"{Type} {id} not found: {msg}", Generic
"Error accessing {type} {id}: {msg}" — so the claim's single template
"{ResourceType} {resourceId}: {original message}" holds for none of
them; the original status code (which may be absent) and the raw
response payload are carried unchanged, and the mapper never produces
the `issueType` kind. -/
theorem claim9_error_payload (e : Failure) (rt rid : List Char) :
    (handle_error e rt rid).statusCode = e.statusCode
      ∧ (handle_error e rt rid).response = e.response
      ∧ (handle_error e rt rid).kind ≠ EKind.issueType
      ∧ (handle_error e rt rid).message
          = errMsgTemplate (handle_error e rt rid).kind rt rid e.message := by
  unfold handle_error
  dsimp only
  split_ifs <;>
    exact ⟨rfl, rfl, fun h => EKind.noConfusion h, rfl⟩

/-- CPython dict assignment `d[k] = v`: overwrite in place if the key
exists, otherwise append (insertion order preserved). -/
def dictSet (d : List (List Char × List Char)) (k v : List Char) :
    List (List Char × List Char) :=
  match d with
  | [] => [(k, v)]
  | (k0, v0) :: t => if k0 = k then (k, v) :: t else (k0, v0) :: dictSet t k v

/-- CPython `d.values()` as a list in insertion order. -/
def dictValues (d : List (List Char × List Char)) : List (List Char) :=
  d.map (fun kv => kv.2)

/-- CPython `k in d` membership test on keys. -/
def dictHasKey (d : List (List Char × List Char)) (k : List Char) : Bool :=
  d.any (fun kv => kv.1 = k)

/-- CPython `d[k]` lookup (first match; keys are unique by construction
of `dictSet`). -/
def dictGet (d : List (List Char × List Char)) (k : List Char) : Option (List Char) :=
  match d with
  | [] => none
  | (k0, v0) :: t => if k0 = k then some v0 else dictGet t k

/-- One row of the instance field catalog as consumed by
`JiraClient.get_jira_field_ids`: `field.get("name", "")`,
`field.get("id", "")` and `field.get("schema", {}).get("custom", "")`.
(The schema's `type` entry is read by the source but never used.) -/
structure FieldRec where
  name : List Char
  id : List Char
  custom : List Char
deriving DecidableEq, Repr

/-- The per-field classification step of `get_jira_field_ids`
(`client.py` lines 199-267): the if/elif chain over the lower-cased
display name, the original name and the schema custom tag, first match
wins, with the catch-all "epic" rule guarded by
`field_id not in field_ids.values()`. -/
def classifyFieldStep (field_ids : List (List Char × List Char)) (field : FieldRec) :
    List (List Char × List Char) :=
  let field_name := lowerChars field.name
  let original_name := field.name
  let field_id := field.id
  let field_custom := field.custom
  if containsSub field_name ("epic link".toList)
      || containsSub field_name ("epic-link".toList)
      || original_name = ("Epic Link".toList)
      || field_custom = ("com.pyxis.greenhopper.jira:gh-epic-link".toList) then
    dictSet field_ids ("epic_link".toList) field_id
  else if containsSub field_name ("epic name".toList)
      || containsSub field_name ("epic-name".toList)
      || original_name = ("Epic Name".toList)
      || field_custom = ("com.pyxis.greenhopper.jira:gh-epic-label".toList) then
    dictSet field_ids ("epic_name".toList) field_id
  else if field_name = ("parent".toList) || field_name = ("parent link".toList)
      || original_name = ("Parent Link".toList) then
    dictSet field_ids ("parent".toList) field_id
  else if containsSub field_name ("epic status".toList)
      || original_name = ("Epic Status".toList) then
    dictSet field_ids ("epic_status".toList) field_id
  else if containsSub field_name ("epic colour".toList)
      || containsSub field_name ("epic color".toList)
      || original_name = ("Epic Colour".toList)
      || original_name = ("Epic Color".toList)
      || field_custom = ("com.pyxis.greenhopper.jira:gh-epic-color".toList) then
    dictSet field_ids ("epic_color".toList) field_id
  else if field_name = ("priority".toList) || original_name = ("Priority".toList) then
    dictSet field_ids ("priority".toList) field_id
  else if containsSub field_name ("sprint".toList)
      || field_custom = ("com.pyxis.greenhopper.jira:gh-sprint".toList) then
    dictSet field_ids ("sprint".toList) field_id
  else if containsSub field_name ("story points".toList)
      || containsSub field_name ("storypoints".toList)
      || containsSub field_name ("story point".toList) then
    dictSet field_ids ("story_points".toList) field_id
  else if (containsSub field_name ("epic".toList) || containsSub field_custom ("epic".toList))
      && ¬ (dictValues field_ids).contains field_id then
    dictSet field_ids
      (("epic_".toList) ++ field_name.map (fun c => if c = ' ' then '_' else c)) field_id
  else
    field_ids

/-- The catalog loop of `get_jira_field_ids`: fold the classification
step over the catalog in response order. -/
def classifyFields (catalog : List FieldRec) : List (List Char × List Char) :=
  catalog.foldl classifyFieldStep []

/-- Embedding of `JiraClient.get_jira_field_ids` (`client.py` lines
175-277) as one call-step of the client.  Inputs: the current
`_field_ids_cache` and the outcome of the upstream `self.jira.fields()`
call.  Outputs: the call's result (`Except` because `_handle_error`
always raises, making the source's trailing `return {}` unreachable),
the new cache, and how many upstream catalog fetches the call performed
(0 or 1). -/
def get_jira_field_ids (cache : List (List Char × List Char))
    (fetch : Except Failure (List FieldRec)) :
    Except JiraError (List (List Char × List Char))
      × List (List Char × List Char) × Nat :=
  if cache ≠ [] then
    (.ok cache, cache, 0)
  else
    match fetch with
    | .ok catalog =>
      let field_ids := classifyFields catalog
      (.ok field_ids, field_ids, 1)
    | .error e =>
      (.error (handle_error e ("fields".toList) ("".toList)), cache, 1)

/-- C2 (code bug): on upstream failure the resolver classifies the error
through `_handle_error` — which always raises — so the call raises the
typed error instead of returning the empty map promised by the spec and
by the source's own `# Return an empty dict as fallback` comment (dead
code at `client.py` line 277).  At the concrete failing input (empty
cache, catalog fetch failing with status 500 and message "Internal
server error") the call evaluates to a raised generic `JiraAPIError`,
not to an empty-map result. -/
theorem claim2_field_ids_raises_on_failure :
    get_jira_field_ids []
        (.error ⟨("Internal server error".toList), some 500, none⟩)
      = (.error ⟨.apiError,
          ("Error accessing fields : Internal server error".toList), some 500, none⟩,
          [], 1) := by
  rfl

/-- C3 counterexample: for a client whose catalog contains no
classifiable field (here: the empty catalog), the first call succeeds and
returns the empty map, but the cache test `if self._field_ids_cache:` is
a truthiness test, so the second call performs a new upstream catalog
query (its fetch count is 1 again, for a running total of 2, not 1). -/
theorem claim3_counterexample :
    (get_jira_field_ids [] (.ok [])).1 = .ok []
      ∧ (get_jira_field_ids
            (get_jira_field_ids [] (.ok [])).2.1 (.ok [])).2.2 = 1 := by
  exact ⟨rfl, rfl⟩

/-- C3 amended: idempotence holds once the first successful call returns
a NON-empty map: the map is cached, and every subsequent call returns
exactly the cached map while performing no new upstream catalog query.
(A first call that produces an empty map leaves the truthiness-tested
cache unpopulated, and the next call queries upstream again.) -/
theorem claim3_cached_after_nonempty (catalog : List FieldRec)
    (h : classifyFields catalog ≠ [])
    (fetch2 : Except Failure (List FieldRec)) :
    (get_jira_field_ids [] (.ok catalog)).1 = .ok (classifyFields catalog)
      ∧ get_jira_field_ids (get_jira_field_ids [] (.ok catalog)).2.1 fetch2
          = (.ok (classifyFields catalog), classifyFields catalog, 0) := by
  have h1 : get_jira_field_ids [] (.ok catalog)
      = (.ok (classifyFields catalog), classifyFields catalog, 1) := by
    simp [get_jira_field_ids]
  refine ⟨by rw [h1], ?_⟩
  rw [h1]
  simp [get_jira_field_ids, h]

/-- C3 witness: with the spec's example catalog — one field named
"Epic Link" with the greenhopper epic-link custom tag and id
`customfield_10014` — the first call returns the map
`epic_link ↦ customfield_10014`, and the second call returns the same
cached map with zero upstream fetches (call count stays 1). -/
theorem claim3_cached_after_nonempty_witness :
    (get_jira_field_ids [] (.ok [⟨("Epic Link".toList), ("customfield_10014".toList),
        ("com.pyxis.greenhopper.jira:gh-epic-link".toList)⟩])).1
      = .ok [(("epic_link".toList), ("customfield_10014".toList))]
      ∧ get_jira_field_ids
          (get_jira_field_ids [] (.ok [⟨("Epic Link".toList), ("customfield_10014".toList),
            ("com.pyxis.greenhopper.jira:gh-epic-link".toList)⟩])).2.1
          (.error ⟨("boom".toList), none, none⟩)
        = (.ok [(("epic_link".toList), ("customfield_10014".toList))],
            [(("epic_link".toList), ("customfield_10014".toList))], 0) := by
  have h := claim3_cached_after_nonempty
    [⟨("Epic Link".toList), ("customfield_10014".toList),
      ("com.pyxis.greenhopper.jira:gh-epic-link".toList)⟩]
    (by decide) (.error ⟨("boom".toList), none, none⟩)
  exact ⟨h.1.trans (by rfl), h.2.trans (by rfl)⟩

/-- A minimal JSON value universe for the wire shapes handled by the
transition normalizer: null, booleans, numbers, strings, arrays and
objects (objects as ordered key/value lists, CPython dict style). -/
inductive J where
  | null
  | b (v : Bool)
  | n (v : Int)
  | s (v : String)
  | a (items : List J)
  | o (fields : List (String × J))

/-- CPython `d.get(k)` on a JSON object: the first value bound to `k`,
`None` (here `J.null`) when the key is absent. -/
def getJ (d : List (String × J)) (k : String) : J :=
  match d with
  | [] => .null
  | (k0, v) :: t => if k0 = k then v else getJ t k

/-- CPython `k in d` on a JSON object. -/
def hasKeyJ (d : List (String × J)) (k : String) : Bool :=
  d.any (fun kv => kv.1 = k)

/-- The canonical transition record built by
`IssueManager.get_available_transitions` (`issues.py` line 662):
`{"id": ..., "name": ..., "to_status": ...}` with each slot holding the
wire value verbatim (`J.null` standing for Python `None`). -/
structure TransitionOut where
  id : J
  name : J
  to_status : J

/-- The per-transition `to`/`to_status`/`status` normalization of
`get_available_transitions` (`issues.py` lines 649-660): if `to` is
present and is an object take its `name`, if present and not an object
take the value itself, else fall back to `to_status`, then `status`,
else `None`. -/
def toStatusOf (t : List (String × J)) : J :=
  if hasKeyJ t ("to") then
    match getJ t ("to") with
    | .o o2 => getJ o2 ("name")
    | v => v
  else if hasKeyJ t ("to_status") then getJ t ("to_status")
  else if hasKeyJ t ("status") then getJ t ("status")
  else .null

/-- The transition loop of `get_available_transitions` (`issues.py`
lines 641-662): entries that are not objects are skipped
(`if not isinstance(transition, dict): continue`); each object entry
yields one canonical record with `id` and `name` taken verbatim via
`.get`. -/
def normalizeEntries (transitions : List J) : List TransitionOut :=
  transitions.filterMap (fun tr =>
    match tr with
    | .o t => some ⟨getJ t ("id"), getJ t ("name"), toStatusOf t⟩
    | _ => none)

/-- Embedding of the response-shape dispatch of
`IssueManager.get_available_transitions` (`issues.py` lines 629-639)
applied to the upstream response value: an object with a `transitions`
key yields its array's normalized entries, a bare array is normalized
directly, and any other top-level shape yields the empty list with a
diagnostic.  (Modelling scope: a present `transitions` value is taken to
be an array, as in every wire shape the spec enumerates; iterating a
non-array value is a path outside the claims.) -/
def get_available_transitions (transitions_data : J) : List TransitionOut :=
  match transitions_data with
  | .o fields =>
    if hasKeyJ fields ("transitions") then
      match getJ fields ("transitions") with
      | .a ts => normalizeEntries ts
      | _ => []
    else []
  | .a ts => normalizeEntries ts
  | _ => []

/-- C6 counterexample: a transition entry whose wire `id` is the number
21 is normalized with `id` still the number 21, not the string "21" —
the source stores `transition.get("id")` verbatim and never converts it
to a string, so the claimed string-preservation invariant fails for
numeric wire ids. -/
theorem claim6_counterexample :
    get_available_transitions
        (J.o [(("transitions"),
          J.a [J.o [(("id"), J.n 21), (("name"), J.s ("Done")), (("to"), J.s ("Done"))]])])
      = [⟨J.n 21, J.s ("Done"), J.s ("Done")⟩]
      ∧ (getJ [(("id"), J.n 21), (("name"), J.s ("Done")), (("to"), J.s ("Done"))] ("id"))
          ≠ J.s ("21") :=
  ⟨rfl, fun h => nomatch h⟩

/-- C6 amended: normalization preserves each entry's `id` verbatim as
received on the wire — an entry whose wire `id` is a string keeps exactly
that string, but a numeric wire `id` stays numeric (no string
conversion).  Stated as: the normalized `id`s are exactly the wire
`.get("id")` values of the object-shaped entries, in order. -/
theorem claim6_id_verbatim (ts : List J) :
    (get_available_transitions (J.o [(("transitions"), J.a ts)])).map
        (fun tr => tr.id)
      = ts.filterMap (fun tr =>
          match tr with
          | J.o t => some (getJ t ("id"))
          | _ => none) := by
  show (normalizeEntries ts).map (fun tr => tr.id) = _
  induction ts with
  | nil => rfl
  | cons hd tl ih =>
    cases hd <;> simp [normalizeEntries, List.filterMap_cons] at ih ⊢ <;> exact ih

/-- Per-character ASCII model of CPython `str.isalnum` (identifiers in
the embedded paths are ASCII). -/
def pyIsAlnumChar (c : Char) : Bool :=
  c.isAlphanum

/-- The account-id shape test of `IssueManager._get_account_id`
(`issues.py` line 114): `assignee and assignee.replace("-", "").isalnum()`
— non-empty, and non-empty all-alphanumeric after removing hyphens. -/
def isAcctShape (assignee : List Char) : Bool :=
  !assignee.isEmpty
    && (let stripped := assignee.filter (fun c => !(c = '-'))
        !stripped.isEmpty && stripped.all pyIsAlnumChar)

/-- The `accountId` slot of a user record returned by the user-search
endpoints: absent, a string, or present but not a string. -/
inductive AVal where
  | missing
  | strv (s : List Char)
  | other
deriving DecidableEq, Repr

/-- A user record as consumed by `_get_account_id` (only the
`accountId` slot is inspected for control flow). -/
structure UserRec where
  accountId : AVal
deriving DecidableEq, Repr

/-- The two upstream lookups `_get_account_id` can perform: the direct
`user_find_by_user_string` search and the permission-scoped
`get_users_with_browse_permission_to_a_project` fallback; each may raise. -/
structure AcctUpstream where
  user_find_by_user_string : Except (List Char) (List UserRec)
  browse_permission_users : Except (List Char) (List UserRec)

/-- The source's usability test on a looked-up `accountId`
(`issues.py` lines 132-133 and 152-153): truthy and a string, i.e. a
non-empty string value. -/
def usableAcct : AVal → Option (List Char)
  | .strv s => if s ≠ [] then some s else none
  | _ => none

/-- The error message of the outer `except` clause of `_get_account_id`
(`issues.py` line 161), which wraps every failing path. -/
def resolveErrMsg (assignee : List Char) : List Char :=
  ("Could not resolve account ID for \x27".toList) ++ assignee ++ ("\x27".toList)

/-- Embedding of `IssueManager._get_account_id` (`issues.py` lines
100-161).  Output: the result (resolved account id, or the raised
`ValueError` message) together with the number of direct-lookup calls
and the number of permission-scoped fallback calls performed.
Control flow mirrors the source: the shape test short-circuits with no
upstream call; otherwise the direct lookup runs once, and the fallback
runs exactly when the direct lookup raised, returned no users, or its
first user had no usable string `accountId`; every failing path is
wrapped by the outer `except` into the single resolution error. -/
def get_account_id (u : AcctUpstream) (assignee : List Char) :
    Except (List Char) (List Char) × Nat × Nat :=
  if isAcctShape assignee then
    (.ok assignee, 0, 0)
  else
    let fallback : Except (List Char) (List Char) :=
      match u.browse_permission_users with
      | .error _ => .error (resolveErrMsg assignee)
      | .ok [] => .error (resolveErrMsg assignee)
      | .ok (user :: _) =>
        match usableAcct user.accountId with
        | some account_id => .ok account_id
        | none => .error (resolveErrMsg assignee)
    match u.user_find_by_user_string with
    | .ok (user :: _) =>
      (match usableAcct user.accountId with
       | some account_id => (.ok account_id, 1, 0)
       | none => (fallback, 1, 1))
    | .ok [] => (fallback, 1, 1)
    | .error _ => (fallback, 1, 1)

/-- What the direct lookup yields, for stating when the fallback runs:
the usable account id of the first user of a successful non-empty direct
search, and `none` on an empty, unusable or failing search. -/
def directUsable (u : AcctUpstream) : Option (List Char) :=
  match u.user_find_by_user_string with
  | .ok (user :: _) => usableAcct user.accountId
  | _ => none

/-- C5 counterexample: the identifier "---" consists only of
alphanumerics and hyphens (every character is a hyphen), yet
`_get_account_id` does not return it verbatim without an upstream call:
`"".isalnum()` is false after the hyphens are stripped, so the direct
lookup is performed (direct-call count 1, not 0). -/
theorem claim5_counterexample :
    (∀ c ∈ ("---".toList), c = '-' ∨ pyIsAlnumChar c = true)
      ∧ (get_account_id ⟨.ok [], .ok []⟩ ("---".toList)).2.1 = 1 := by
  exact ⟨by decide, by decide⟩

/-- C5 amended: an identifier consisting only of alphanumerics and
hyphens WITH at least one alphanumeric character (non-empty after
removing hyphens) is returned verbatim with no upstream call; any
identifier failing the shape test (including hyphen-only or empty ones)
triggers exactly one direct lookup, and exactly one permission-scoped
fallback lookup precisely when the direct lookup yields no usable
account id (empty, unusable first record, or a raised lookup). -/
theorem claim5_account_resolution (u : AcctUpstream) (a : List Char) :
    (isAcctShape a = true → get_account_id u a = (.ok a, 0, 0))
      ∧ (isAcctShape a = false →
          (get_account_id u a).2.1 = 1
            ∧ ((get_account_id u a).2.2 = 1 ↔ directUsable u = none)) := by
  constructor
  · intro h
    simp [get_account_id, h]
  · intro h
    simp only [get_account_id, h, Bool.false_eq_true, if_false]
    cases hd : u.user_find_by_user_string with
    | error msg => simp [directUsable, hd]
    | ok users =>
      cases users with
      | nil => simp [directUsable, hd]
      | cons user rest =>
        cases hu : usableAcct user.accountId with
        | none => simp [directUsable, hd, hu]
        | some accId => simp [directUsable, hd, hu]

/-- C5 witness: "abc-123" resolves verbatim with zero upstream calls;
"user@example.com" (failing the shape test) with an empty direct-search
result performs exactly one direct call and exactly one fallback call. -/
theorem claim5_account_resolution_witness :
    get_account_id ⟨.ok [], .ok []⟩ ("abc-123".toList)
        = (.ok ("abc-123".toList), 0, 0)
      ∧ (get_account_id ⟨.ok [], .ok []⟩ ("user@example.com".toList)).2.1 = 1
      ∧ (get_account_id ⟨.ok [], .ok []⟩ ("user@example.com".toList)).2.2 = 1 := by
  have h1 := (claim5_account_resolution ⟨.ok [], .ok []⟩ ("abc-123".toList)).1 (by decide)
  have h2 := (claim5_account_resolution ⟨.ok [], .ok []⟩ ("user@example.com".toList)).2 (by decide)
  exact ⟨h1, h2.1, h2.2.mpr rfl⟩

/-- A field value in an `issue_update` payload: the plain epic-key
string, or the `{"key": epic_key}` object used for the `parent` field. -/
inductive FVal where
  | str (s : List Char)
  | keyObj (k : List Char)
deriving DecidableEq, Repr

/-- An `issue_update(issue_key, fields=...)` payload, as an ordered
field/value dict. -/
abbrev Payload := List (List Char × FVal)

/-- The upstream collaborators of `IssueManager.link_issue_to_epic`:
the epic fetch (`jira.issue(epic_key)`, reduced to the issue-type name
it yields or the failure it raises), the field-id map produced by
`get_jira_field_ids` (modelled as already resolved), and the
success/failure outcome of each `jira.issue_update` write payload.  The
read-back `get_issue` after a successful write is modelled as
succeeding; it performs no write. -/
structure LinkUpstream where
  epicFetch : Except Failure (List Char)
  fieldIds : List (List Char × List Char)
  issue_update : Payload → Bool

/-- The message of the `JiraAPIError` raised when every linking
strategy failed (`issues.py` lines 812-814). -/
def couldNotLinkMsg (issue_key epic_key : List Char) : List Char :=
  ("Could not link issue ".toList) ++ issue_key ++ (" to epic ".toList) ++ epic_key
    ++ (". Your Jira instance might use a different field for epic links.".toList)

/-- The outer `except` clause of `link_issue_to_epic` (`issues.py`
lines 816-822): a message containing "does not exist" or "not found"
becomes `JiraResourceNotFoundError(str(e))`; a `JiraIssueTypeError` is
re-raised unchanged; everything else goes through `_handle_error` with
resource type "issue" and id "linking {issue_key} to {epic_key}". -/
def linkOuterCatch (issue_key epic_key : List Char) (f : Failure) (isTypeErr : Bool) :
    JiraError :=
  if containsSub (lowerChars f.message) ("does not exist".toList)
      || containsSub (lowerChars f.message) ("not found".toList) then
    ⟨.notFound, f.message, none, none⟩
  else if isTypeErr then
    ⟨.issueType, f.message, f.statusCode, f.response⟩
  else
    handle_error f ("issue".toList)
      (("linking ".toList) ++ issue_key ++ (" to ".toList) ++ epic_key)

/-- The `parent` strategy payload `{"parent": {"key": epic_key}}`
(`issues.py` line 781). -/
def parentPayload (epic_key : List Char) : Payload :=
  [(("parent".toList), FVal.keyObj epic_key)]

/-- The discovered-epic-link strategy payload
`{field_ids["epic_link"]: epic_key}` (`issues.py` line 790). -/
def epicLinkPayload (epic_link_id epic_key : List Char) : Payload :=
  [(epic_link_id, FVal.str epic_key)]

/-- The fixed legacy fallback payload list of `link_issue_to_epic`
(`issues.py` lines 797-801). -/
def epicLinkFallbacks (epic_key : List Char) : List Payload :=
  [[(("customfield_10014".toList), FVal.str epic_key)],
   [(("customfield_10000".toList), FVal.str epic_key)],
   [(("epic_link".toList), FVal.str epic_key)]]

/-- The fallback loop of `link_issue_to_epic` (`issues.py` lines
803-809): try each payload in order, stop at the first success;
result is (some strategy succeeded, payloads attempted). -/
def runFallbacks (upd : Payload → Bool) : List Payload → Bool × List Payload
  | [] => (false, [])
  | p :: rest =>
    if upd p then (true, [p])
    else ((runFallbacks upd rest).1, p :: (runFallbacks upd rest).2)

/-- Embedding of `IssueManager.link_issue_to_epic` (`issues.py` lines
751-822).  Output: the call's result and the ordered list of
`issue_update` write payloads attempted.  Control flow mirrors the
source: the epic-type precondition first; then the `parent` strategy
(whose guard `"parent" in field_ids or "parent" not in field_ids` is a
tautology, embedded as written); then the discovered `epic_link` field
if present; then the fixed legacy fallbacks; finally the
"could not link" `JiraAPIError`, which flows through the outer `except`
clause like every other failure. -/
def link_issue_to_epic (u : LinkUpstream) (issue_key epic_key : List Char) :
    Except JiraError Unit × List Payload :=
  match u.epicFetch with
  | .error f => (.error (linkOuterCatch issue_key epic_key f false), [])
  | .ok type_name =>
    if type_name = ("Epic".toList) then
      let field_ids := u.fieldIds
      let fields1 : Payload := parentPayload epic_key
      let step1 : Option (List Payload) × List Payload :=
        if dictHasKey field_ids ("parent".toList)
            || !dictHasKey field_ids ("parent".toList) then
          if u.issue_update fields1 then (some [fields1], [fields1]) else (none, [fields1])
        else (none, [])
      match step1 with
      | (some tr, _) => (.ok (), tr)
      | (none, tr1) =>
        let step2 : Option (List Payload) × List Payload :=
          match dictGet field_ids ("epic_link".toList) with
          | some epic_link_id =>
            let fields2 : Payload := epicLinkPayload epic_link_id epic_key
            if u.issue_update fields2 then (some (tr1 ++ [fields2]), tr1 ++ [fields2])
            else (none, tr1 ++ [fields2])
          | none => (none, tr1)
        match step2 with
        | (some tr, _) => (.ok (), tr)
        | (none, tr2) =>
          let fb := runFallbacks u.issue_update (epicLinkFallbacks epic_key)
          if fb.1 then (.ok (), tr2 ++ fb.2)
          else
            (.error (linkOuterCatch issue_key epic_key
              ⟨couldNotLinkMsg issue_key epic_key, none, none⟩ false), tr2 ++ fb.2)
    else
      (.error (linkOuterCatch issue_key epic_key
        ⟨("Issue ".toList) ++ epic_key ++ (" is not an Epic, it is a ".toList) ++ type_name,
          none, none⟩ true), [])

/-- Helper: a substring of `m` is a substring of `pre ++ m`. -/
theorem containsSub_append_left (pre m needle : List Char)
    (h : containsSub m needle = true) : containsSub (pre ++ m) needle = true := by
  induction pre with
  | nil => simpa using h
  | cons c t ih => simp [containsSub, ih]

/-- Helper: the all-strategies-failed message starts with
"Could not link issue" for any keys. -/
theorem couldNotLink_contains (issue_key epic_key : List Char) :
    containsSub (couldNotLinkMsg issue_key epic_key)
      ("Could not link issue".toList) = true := rfl

/-- C4: with the epic precondition satisfied, the strategies run in the
fixed order parent, discovered epic_link, legacy fallbacks, stopping at
the first success: a successful `parent` write means exactly one write
payload was attempted and the call succeeds; a failed `parent` followed
by a successful discovered `epic_link` write means exactly two write
payloads were attempted; and if every write fails, the call raises a
typed error whose message states the issue could not be linked. -/
theorem claim4_epic_link_strategy_order (u : LinkUpstream) (issue_key epic_key : List Char)
    (hEpic : u.epicFetch = .ok ("Epic".toList)) :
    (u.issue_update (parentPayload epic_key) = true →
        link_issue_to_epic u issue_key epic_key
          = (.ok (), [parentPayload epic_key]))
      ∧ (∀ epic_link_id,
          u.issue_update (parentPayload epic_key) = false →
          dictGet u.fieldIds ("epic_link".toList) = some epic_link_id →
          u.issue_update (epicLinkPayload epic_link_id epic_key) = true →
          link_issue_to_epic u issue_key epic_key
            = (.ok (), [parentPayload epic_key, epicLinkPayload epic_link_id epic_key]))
      ∧ ((∀ p, u.issue_update p = false) →
          ∃ err, (link_issue_to_epic u issue_key epic_key).1 = .error err
            ∧ containsSub err.message ("Could not link issue".toList) = true) := by
  have htaut : (dictHasKey u.fieldIds ("parent".toList)
      || !dictHasKey u.fieldIds ("parent".toList)) = true := by
    cases dictHasKey u.fieldIds ("parent".toList) <;> rfl
  refine ⟨?_, ?_, ?_⟩
  · intro hup
    simp only [link_issue_to_epic, hEpic, htaut, hup, if_true]
  · intro epic_link_id hup1 hget hup2
    simp only [link_issue_to_epic, hEpic, htaut, hup1, hget, hup2, if_true,
      Bool.false_eq_true, if_false]
    rfl
  · intro hupd
    simp only [link_issue_to_epic, hEpic, htaut, hupd, if_true, if_false,
      Bool.false_eq_true, epicLinkFallbacks, runFallbacks]
    cases hget : dictGet u.fieldIds ("epic_link".toList) with
    | none =>
      refine ⟨_, rfl, ?_⟩
      unfold linkOuterCatch
      split_ifs with hnf hte
      · exact couldNotLink_contains issue_key epic_key
      · exact hte.elim
      · obtain ⟨pre, hpre⟩ := handle_error_message_tail
          ⟨couldNotLinkMsg issue_key epic_key, none, none⟩ ("issue".toList)
          (("linking ".toList) ++ issue_key ++ (" to ".toList) ++ epic_key)
        rw [hpre]
        exact containsSub_append_left _ _ _ (couldNotLink_contains issue_key epic_key)
    | some epic_link_id =>
      simp only [hget, hupd, Bool.false_eq_true, if_false]
      refine ⟨_, rfl, ?_⟩
      unfold linkOuterCatch
      split_ifs with hnf hte
      · exact couldNotLink_contains issue_key epic_key
      · exact hte.elim
      · obtain ⟨pre, hpre⟩ := handle_error_message_tail
          ⟨couldNotLinkMsg issue_key epic_key, none, none⟩ ("issue".toList)
          (("linking ".toList) ++ issue_key ++ (" to ".toList) ++ epic_key)
        rw [hpre]
        exact containsSub_append_left _ _ _ (couldNotLink_contains issue_key epic_key)

/-- C4 witness: at concrete upstreams — parent write succeeding; parent
failing with a discovered epic_link field succeeding; and every write
failing — the orchestrator attempts exactly one write, exactly two
writes, and raises a "could not link" error respectively. -/
theorem claim4_epic_link_strategy_order_witness :
    link_issue_to_epic
        ⟨.ok ("Epic".toList), [], fun _ => true⟩ ("PROJ-1".toList) ("PROJ-9".toList)
      = (.ok (), [parentPayload ("PROJ-9".toList)])
      ∧ link_issue_to_epic
          ⟨.ok ("Epic".toList), [(("epic_link".toList), ("customfield_10008".toList))],
            fun p => decide (p ≠ parentPayload ("PROJ-9".toList))⟩
          ("PROJ-1".toList) ("PROJ-9".toList)
        = (.ok (), [parentPayload ("PROJ-9".toList),
            epicLinkPayload ("customfield_10008".toList) ("PROJ-9".toList)])
      ∧ ∃ err, (link_issue_to_epic
          ⟨.ok ("Epic".toList), [], fun _ => false⟩
          ("PROJ-1".toList) ("PROJ-9".toList)).1 = .error err
          ∧ containsSub err.message ("Could not link issue".toList) = true := by
  refine ⟨?_, ?_, ?_⟩
  · exact (claim4_epic_link_strategy_order
      ⟨.ok ("Epic".toList), [], fun _ => true⟩ ("PROJ-1".toList) ("PROJ-9".toList)
      rfl).1 rfl
  · exact (claim4_epic_link_strategy_order
      ⟨.ok ("Epic".toList), [(("epic_link".toList), ("customfield_10008".toList))],
        fun p => decide (p ≠ parentPayload ("PROJ-9".toList))⟩
      ("PROJ-1".toList) ("PROJ-9".toList) rfl).2.1
      ("customfield_10008".toList) (by decide) rfl (by decide)
  · exact (claim4_epic_link_strategy_order
      ⟨.ok ("Epic".toList), [], fun _ => false⟩ ("PROJ-1".toList) ("PROJ-9".toList)
      rfl).2.2 (fun _ => rfl)

/-- The unit table of `IssueManager._parse_time_spent` (`issues.py`
lines 934-939): seconds per duration unit.  The scan only ever produces
units in `w/d/h/m`, so the final branch is the `m` entry. -/
def unitSecs (c : Char) : Nat :=
  if c = 'w' then 7 * 24 * 60 * 60
  else if c = 'd' then 24 * 60 * 60
  else if c = 'h' then 60 * 60
  else 60

/-- The unit alternatives of the token pattern `(\d+)([wdhm])`. -/
def isUnitChar (c : Char) : Bool :=
  c = 'w' || c = 'd' || c = 'h' || c = 'm'

/-- CPython `int` on a decimal digit string. -/
def natOfDigits (ds : List Char) : Nat :=
  ds.foldl (fun acc c => acc * 10 + (c.toNat - ('0').toNat)) 0

/-- Left-to-right scan equivalent to CPython
`re.findall(r"(\d+)([wdhm])", s)` on ASCII input: a maximal run of
digits immediately followed by a unit letter yields one (value, unit)
token; a digit run not followed by a unit letter yields nothing (its
sub-runs end at the same non-unit character, so the regex engine also
finds no match inside it).  `acc` is the digit run read so far. -/
def scanTok (acc : List Char) : List Char → List (Nat × Char)
  | [] => []
  | c :: rest =>
    if c.isDigit then scanTok (acc ++ [c]) rest
    else if !acc.isEmpty && isUnitChar c then (natOfDigits acc, c) :: scanTok [] rest
    else scanTok [] rest

/-- The matches of `re.findall(r"(\d+)([wdhm])", s)` with values
converted by `int` (ASCII model of `\d`). -/
def findTokens (s : List Char) : List (Nat × Char) :=
  scanTok [] s

/-- Embedding of `IssueManager._parse_time_spent` (`issues.py` lines
917-954): empty input raises; the lower-cased input is scanned for
`(\d+)([wdhm])` tokens; no token raises the invalid-format error;
otherwise the token contributions `int(value) * units[unit]` are summed
(the source's `if unit in units` guard is kept). -/
def parse_time_spent (time_spent : List Char) : Except (List Char) Nat :=
  if time_spent = [] then
    .error ("Time spent string cannot be empty".toList)
  else
    let found := findTokens (lowerChars time_spent)
    if found = [] then
      .error (("Invalid time format: ".toList) ++ time_spent
        ++ (". Expected format like \x271h 30m\x27, \x271d\x27, etc.".toList))
    else
      .ok (found.foldl
        (fun total vu =>
          if isUnitChar vu.2 then total + vu.1 * unitSecs vu.2 else total) 0)

/-- A wellformed `<digits><unit>` duration token: non-empty digit run
plus a (lower-case) unit letter. -/
def validTok (t : List Char × Char) : Bool :=
  !t.1.isEmpty && t.1.all Char.isDigit && isUnitChar t.2

/-- All tokens of a list are wellformed. -/
def validToks (L : List (List Char × Char)) : Bool :=
  L.all validTok

/-- Render one token as its concrete syntax. -/
def renderTok (t : List Char × Char) : List Char :=
  t.1 ++ [t.2]

/-- Render a token list as a whitespace-separated duration string, the
grammar of spec section 4.2. -/
def renderToks : List (List Char × Char) → List Char
  | [] => []
  | [t] => renderTok t
  | t :: t2 :: rest => renderTok t ++ ' ' :: renderToks (t2 :: rest)


/-- Helper: split a true boolean conjunction. -/
theorem band_true {a b : Bool} (h : (a && b) = true) : a = true ∧ b = true := by
  cases a <;> cases b <;> simp_all

/-- Helper: split a true boolean disjunction. -/
theorem bor_true {a b : Bool} (h : (a || b) = true) : a = true ∨ b = true := by
  cases a <;> cases b <;> simp_all

/-- Helper: a list with a false emptiness test is not nil. -/
theorem ne_nil_of_not_isEmpty {α} {l : List α} (h : (!l.isEmpty) = true) : l ≠ [] := by
  cases l with
  | nil => simp at h
  | cons a t => exact fun hc => List.noConfusion hc

/-- Helper: a digit character is below the upper-case range, so
`Char.toLower` leaves it unchanged. -/
theorem toLower_digit (c : Char) (h : c.isDigit = true) : c.toLower = c := by
  have h2 : c.val ≤ 57 := by
    unfold Char.isDigit at h
    exact of_decide_eq_true (band_true h).2
  have h3 : c.toNat ≤ 57 := UInt32.toNat_le_of_le (by decide) h2
  have h4 : ¬(c.toNat ≥ 65 ∧ c.toNat ≤ 90) := by omega
  unfold Char.toLower
  dsimp only
  rw [if_neg h4]

/-- Helper: a unit letter is lower-case already. -/
theorem toLower_unit (c : Char) (h : isUnitChar c = true) : c.toLower = c := by
  unfold isUnitChar at h
  rcases bor_true h with h1 | h1
  · rcases bor_true h1 with h2 | h2
    · rcases bor_true h2 with h3 | h3 <;>
        (rw [of_decide_eq_true h3]; rfl)
    · rw [of_decide_eq_true h2]; rfl
  · rw [of_decide_eq_true h1]; rfl

/-- Helper: a unit letter is not a digit. -/
theorem unit_not_digit (c : Char) (h : isUnitChar c = true) : c.isDigit = false := by
  unfold isUnitChar at h
  rcases bor_true h with h1 | h1
  · rcases bor_true h1 with h2 | h2
    · rcases bor_true h2 with h3 | h3 <;>
        (rw [of_decide_eq_true h3]; rfl)
    · rw [of_decide_eq_true h2]; rfl
  · rw [of_decide_eq_true h1]; rfl

/-- Helper: lower-casing an all-digit run is the identity. -/
theorem lower_digits (ds : List Char) (h : ∀ c ∈ ds, c.isDigit = true) :
    ds.map Char.toLower = ds := by
  induction ds with
  | nil => rfl
  | cons c cs ih =>
    simp only [List.map_cons]
    rw [toLower_digit c (h c (List.mem_cons_self c cs)),
      ih (fun d hd => h d (List.mem_cons_of_mem c hd))]

/-- Helper: the scan absorbs a digit run into its accumulator. -/
theorem scanTok_digits (ds : List Char) (h : ∀ c ∈ ds, c.isDigit = true) :
    ∀ acc rest, scanTok acc (ds ++ rest) = scanTok (acc ++ ds) rest := by
  induction ds with
  | nil => intro acc rest; simp
  | cons c ds ih =>
    intro acc rest
    have hc : c.isDigit = true := h c (List.mem_cons_self c ds)
    show scanTok acc (c :: (ds ++ rest)) = _
    rw [show scanTok acc (c :: (ds ++ rest))
        = scanTok (acc ++ [c]) (ds ++ rest) by simp [scanTok, hc]]
    rw [ih (fun d hd => h d (List.mem_cons_of_mem c hd)) (acc ++ [c]) rest]
    simp

/-- Helper: a unit letter right after a non-empty digit run emits one
token and restarts the scan. -/
theorem scanTok_unit (acc : List Char) (u : Char) (rest : List Char)
    (hacc : acc ≠ []) (hu : isUnitChar u = true) :
    scanTok acc (u :: rest) = (natOfDigits acc, u) :: scanTok [] rest := by
  have hne : acc.isEmpty = false := by
    cases acc with
    | nil => exact absurd rfl hacc
    | cons a t => rfl
  simp [scanTok, unit_not_digit u hu, hne, hu]

/-- Helper: a space between tokens is skipped with an empty accumulator. -/
theorem scanTok_space (rest : List Char) :
    scanTok [] (' ' :: rest) = scanTok [] rest := rfl

/-- Helper: scanning a rendered wellformed token list recovers exactly
its tokens in order. -/
theorem scanTok_render (L : List (List Char × Char)) (hv : validToks L = true) :
    scanTok [] (renderToks L) = L.map (fun t => (natOfDigits t.1, t.2)) := by
  induction L with
  | nil => rfl
  | cons t rest ih =>
    obtain ⟨ds, u⟩ := t
    have hvt : validTok (ds, u) = true :=
      (List.all_eq_true.mp hv) _ (List.mem_cons_self _ _)
    have hvrest : validToks rest = true :=
      List.all_eq_true.mpr fun x hx => (List.all_eq_true.mp hv) x (List.mem_cons_of_mem _ hx)
    obtain ⟨h1, hunit⟩ := band_true hvt
    obtain ⟨hne0, hdig0⟩ := band_true h1
    have hne : ds ≠ [] := ne_nil_of_not_isEmpty hne0
    have hdig : ∀ c ∈ ds, c.isDigit = true := List.all_eq_true.mp hdig0
    cases rest with
    | nil =>
      show scanTok [] (ds ++ [u]) = [(natOfDigits ds, u)]
      rw [scanTok_digits ds hdig [] [u]]
      simp only [List.nil_append]
      rw [scanTok_unit ds u [] hne hunit]
      rfl
    | cons t2 rest2 =>
      show scanTok [] ((ds ++ [u]) ++ ' ' :: renderToks (t2 :: rest2)) = _
      rw [show (ds ++ [u]) ++ ' ' :: renderToks (t2 :: rest2)
          = ds ++ (u :: ' ' :: renderToks (t2 :: rest2)) by simp]
      rw [scanTok_digits ds hdig [] _]
      simp only [List.nil_append]
      rw [scanTok_unit ds u _ hne hunit, scanTok_space, ih hvrest]
      rfl

/-- Helper: lower-casing a rendered wellformed token list is the
identity (digits, unit letters and spaces are fixed points). -/
theorem lower_render (L : List (List Char × Char)) (hv : validToks L = true) :
    lowerChars (renderToks L) = renderToks L := by
  induction L with
  | nil => rfl
  | cons t rest ih =>
    obtain ⟨ds, u⟩ := t
    have hvt : validTok (ds, u) = true :=
      (List.all_eq_true.mp hv) _ (List.mem_cons_self _ _)
    have hvrest : validToks rest = true :=
      List.all_eq_true.mpr fun x hx => (List.all_eq_true.mp hv) x (List.mem_cons_of_mem _ hx)
    obtain ⟨h1, hunit⟩ := band_true hvt
    obtain ⟨hne0, hdig0⟩ := band_true h1
    have hdig : ∀ c ∈ ds, c.isDigit = true := List.all_eq_true.mp hdig0
    cases rest with
    | nil =>
      show lowerChars (ds ++ [u]) = ds ++ [u]
      simp only [lowerChars, List.map_append, List.map_cons, List.map_nil]
      rw [lower_digits ds hdig, toLower_unit u hunit]
    | cons t2 rest2 =>
      show lowerChars ((ds ++ [u]) ++ ' ' :: renderToks (t2 :: rest2))
          = (ds ++ [u]) ++ ' ' :: renderToks (t2 :: rest2)
      simp only [lowerChars, List.map_append, List.map_cons, List.map_nil]
      rw [lower_digits ds hdig, toLower_unit u hunit,
        show Char.toLower ' ' = ' ' from rfl]
      have h2 := ih hvrest
      simp only [lowerChars] at h2
      rw [h2]

/-- Helper: a rendered non-empty token list is a non-empty string. -/
theorem renderToks_ne_nil (L : List (List Char × Char)) (h : L ≠ []) :
    renderToks L ≠ [] := by
  cases L with
  | nil => exact absurd rfl h
  | cons t rest =>
    obtain ⟨ds, u⟩ := t
    cases rest with
    | nil =>
      show ds ++ [u] ≠ []
      simp
    | cons t2 rest2 =>
      show (ds ++ [u]) ++ ' ' :: renderToks (t2 :: rest2) ≠ []
      simp

/-- Helper: the guarded summation loop of `_parse_time_spent` computes
the plain sum of `value * unitSecs unit` when every unit is wellformed. -/
theorem foldl_units (toks : List (Nat × Char))
    (h : ∀ t ∈ toks, isUnitChar t.2 = true) :
    ∀ a, toks.foldl
        (fun total vu =>
          if isUnitChar vu.2 then total + vu.1 * unitSecs vu.2 else total) a
      = a + (toks.map (fun vu => vu.1 * unitSecs vu.2)).sum := by
  induction toks with
  | nil => intro a; simp
  | cons t rest ih =>
    intro a
    have ht : isUnitChar t.2 = true := h t (List.mem_cons_self t rest)
    simp only [List.foldl_cons, List.map_cons, List.sum_cons, ht, if_true]
    rw [ih (fun x hx => h x (List.mem_cons_of_mem t hx)) (a + t.1 * unitSecs t.2)]
    omega

/-- Helper: parsing a rendered wellformed non-empty token list yields
exactly the sum of `value * unitSecs unit` over its tokens. -/
theorem parse_render (N : List (List Char × Char))
    (hv : validToks N = true) (hne : N ≠ []) :
    parse_time_spent (renderToks N)
      = .ok ((N.map (fun t => natOfDigits t.1 * unitSecs t.2)).sum) := by
  have hns : renderToks N ≠ [] := renderToks_ne_nil N hne
  unfold parse_time_spent
  rw [if_neg hns]
  dsimp only
  rw [show findTokens (lowerChars (renderToks N))
      = N.map (fun t => (natOfDigits t.1, t.2)) from by
    unfold findTokens
    rw [lower_render N hv, scanTok_render N hv]]
  have hmapne : N.map (fun t => (natOfDigits t.1, t.2)) ≠ [] := by
    cases N with
    | nil => exact absurd rfl hne
    | cons a b => simp
  rw [if_neg hmapne]
  have hu : ∀ t ∈ N.map (fun t => (natOfDigits t.1, t.2)), isUnitChar t.2 = true := by
    intro t ht
    obtain ⟨x, hx, rfl⟩ := List.mem_map.mp ht
    exact (band_true ((List.all_eq_true.mp hv) x hx)).2
  rw [foldl_units _ hu 0]
  rw [List.map_map, Nat.zero_add]
  rfl

/-- C8: duration parsing of wellformed `w/d/h/m` token strings is
additive over tokens — the result is the sum of `value * unitSecs unit`
with `w=604800, d=86400, h=3600, m=60` — and independent of token order:
any permutation of the tokens parses to the same value. -/
theorem claim8_duration_parse (L M : List (List Char × Char))
    (hv : validToks L = true) (hne : L ≠ []) (hp : L.Perm M) :
    parse_time_spent (renderToks L)
        = .ok ((L.map (fun t => natOfDigits t.1 * unitSecs t.2)).sum)
      ∧ parse_time_spent (renderToks M) = parse_time_spent (renderToks L) := by
  have hvM : validToks M = true :=
    List.all_eq_true.mpr fun x hx => (List.all_eq_true.mp hv) x (hp.symm.subset hx)
  have hneM : M ≠ [] := by
    intro h0
    have hlen := hp.length_eq
    rw [h0] at hlen
    simp at hlen
    exact hne hlen
  have h1 := parse_render L hv hne
  have h2 := parse_render M hvM hneM
  have hsum : (M.map (fun t => natOfDigits t.1 * unitSecs t.2)).sum
      = (L.map (fun t => natOfDigits t.1 * unitSecs t.2)).sum :=
    ((hp.map (fun t => natOfDigits t.1 * unitSecs t.2)).sum_eq).symm
  exact ⟨h1, by rw [h2, h1, hsum]⟩

/-- C8 witness: the spec's example — `parse("1h 30m")` and
`parse("30m 1h")` both yield 5400 seconds. -/
theorem claim8_duration_parse_witness :
    parse_time_spent ("1h 30m".toList) = .ok 5400
      ∧ parse_time_spent ("30m 1h".toList) = .ok 5400 := by
  have h := claim8_duration_parse
    [((['1'] : List Char), 'h'), ((['3', '0'] : List Char), 'm')]
    [((['3', '0'] : List Char), 'm'), ((['1'] : List Char), 'h')]
    (by decide) (by decide) (List.Perm.swap _ _ _)
  exact ⟨h.1.trans rfl, (h.2.trans h.1).trans rfl⟩

/-- CPython `str.replace(pat, rep)` (all non-overlapping occurrences,
left to right), fuel-indexed so the recursion is structural; each step
consumes at least one input character, so `fuel = input length`
suffices. -/
def replaceAllF (p r : List Char) : Nat → List Char → List Char
  | 0, s => s
  | _ + 1, [] => []
  | fuel + 1, c :: t =>
    if p.isPrefixOf (c :: t) && !p.isEmpty then
      r ++ replaceAllF p r fuel (List.drop (p.length - 1) t)
    else
      c :: replaceAllF p r fuel t

/-- CPython `s.replace(p, r)`. -/
def replaceAll (p r s : List Char) : List Char :=
  replaceAllF p r s.length s

/-- The timezone-spelling normalization prefix of
`IssueManager._parse_date` (`issues.py` lines 83-91): rewrite a
`+0000`/`-0000` spelling to `+00:00`, else insert a colon into a
trailing `[+-]HHMM` offset. -/
def tzNormalize (date_str : List Char) : List Char :=
  if containsSub date_str ("+0000".toList) then
    replaceAll ("+0000".toList) ("+00:00".toList) date_str
  else if containsSub date_str ("-0000".toList) then
    replaceAll ("-0000".toList) ("+00:00".toList) date_str
  else if decide (5 ≤ date_str.length)
      && (match date_str.drop (date_str.length - 5) with
          | c :: ds => (c = '+' || c = '-') && ds.all Char.isDigit
          | [] => false) then
    date_str.take (date_str.length - 2) ++ ':' :: date_str.drop (date_str.length - 2)
  else
    date_str

/-- Numeric value of an ASCII digit character. -/
def digitVal (c : Char) : Nat :=
  c.toNat - ('0').toNat

/-- Gregorian leap-year rule, as used by CPython `datetime`. -/
def isLeapYear (y : Nat) : Bool :=
  decide (y % 4 = 0) && (decide (y % 100 ≠ 0) || decide (y % 400 = 0))

/-- Days in a month, as validated by the CPython `datetime` constructor. -/
def daysInMonth (y m : Nat) : Nat :=
  if m = 2 then (if isLeapYear y then 29 else 28)
  else if m = 4 ∨ m = 6 ∨ m = 9 ∨ m = 11 then 30
  else 31

/-- Read two ASCII digits as a number, returning the rest of the input. -/
def parseTwo : List Char → Option (Nat × List Char)
  | a :: b :: rest =>
    if a.isDigit && b.isDigit then some (digitVal a * 10 + digitVal b, rest) else none
  | _ => none

/-- Modelled from the spec: the trailing UTC-offset grammar
`[+-]HH:MM[:SS]` accepted by CPython `datetime.fromisoformat` (an
external standard-library dependency, not part of this repository);
an empty tail means no offset. -/
def parseOffset (l : List Char) : Bool :=
  match l with
  | [] => true
  | sign :: rest =>
    (sign = '+' || sign = '-')
      && (match parseTwo rest with
          | none => false
          | some (hh, rest2) =>
            decide (hh ≤ 23)
              && (match rest2 with
                  | ':' :: rest3 =>
                    (match parseTwo rest3 with
                     | none => false
                     | some (mm, rest4) =>
                       decide (mm ≤ 59)
                         && (match rest4 with
                             | [] => true
                             | ':' :: rest5 =>
                               (match parseTwo rest5 with
                                | none => false
                                | some (ss, rest6) =>
                                  decide (ss ≤ 59) && rest6.isEmpty)
                             | _ => false))
                  | _ => false))

/-- Modelled from the spec: the time grammar
`HH[:MM[:SS[.f{1,6}]]][offset]` accepted by CPython
`datetime.fromisoformat` (external standard-library dependency). -/
def parseTimeOfDay (l : List Char) : Bool :=
  match parseTwo l with
  | none => false
  | some (hh, rest) =>
    decide (hh ≤ 23)
      && (match rest with
          | [] => true
          | ':' :: rest2 =>
            (match parseTwo rest2 with
             | none => false
             | some (mm, rest3) =>
               decide (mm ≤ 59)
                 && (match rest3 with
                     | [] => true
                     | ':' :: rest4 =>
                       (match parseTwo rest4 with
                        | none => false
                        | some (ss, rest5) =>
                          decide (ss ≤ 59)
                            && (match rest5 with
                                | [] => true
                                | '.' :: rest6 =>
                                  (let ds := rest6.takeWhile Char.isDigit
                                   decide (1 ≤ ds.length) && decide (ds.length ≤ 6)
                                     && parseOffset (rest6.dropWhile Char.isDigit))
                                | _ => parseOffset rest5))
                     | _ => parseOffset rest3))
          | _ => parseOffset rest)

/-- Modelled from the spec: CPython `datetime.fromisoformat` (external
standard-library dependency) on the shapes the date normalizer feeds
it — a `YYYY-MM-DD` date with calendar validation, optionally followed
by a one-character separator and a valid time-of-day with optional
offset; the result is the (year, month, day) triple the `%Y-%m-%d`
formatting step consumes. -/
def fromisoformat (s : List Char) : Option (Nat × Nat × Nat) :=
  match s with
  | y1 :: y2 :: y3 :: y4 :: '-' :: m1 :: m2 :: '-' :: d1 :: d2 :: rest =>
    if y1.isDigit && y2.isDigit && y3.isDigit && y4.isDigit
        && m1.isDigit && m2.isDigit && d1.isDigit && d2.isDigit then
      let y := digitVal y1 * 1000 + digitVal y2 * 100 + digitVal y3 * 10 + digitVal y4
      let m := digitVal m1 * 10 + digitVal m2
      let d := digitVal d1 * 10 + digitVal d2
      if decide (1 ≤ y) && decide (1 ≤ m) && decide (m ≤ 12)
          && decide (1 ≤ d) && decide (d ≤ daysInMonth y m) then
        match rest with
        | [] => some (y, m, d)
        | _ :: timePart => if parseTimeOfDay timePart then some (y, m, d) else none
      else none
    else none
  | _ => none

/-- ASCII digit character of a value below 10. -/
def digitChar (n : Nat) : Char :=
  Char.ofNat (48 + n)

/-- Two-digit zero-padded decimal. -/
def pad2 (n : Nat) : List Char :=
  [digitChar (n / 10 % 10), digitChar (n % 10)]

/-- Four-digit zero-padded decimal. -/
def pad4 (n : Nat) : List Char :=
  [digitChar (n / 1000 % 10), digitChar (n / 100 % 10),
   digitChar (n / 10 % 10), digitChar (n % 10)]

/-- CPython `date.strftime("%Y-%m-%d")` on the parsed triple. -/
def formatYMD (ymd : Nat × Nat × Nat) : List Char :=
  pad4 ymd.1 ++ '-' :: pad2 ymd.2.1 ++ '-' :: pad2 ymd.2.2

/-- Embedding of `IssueManager._parse_date` (`issues.py` lines 70-98):
empty input yields the empty string; otherwise the timezone spelling is
normalized, `Z` is rewritten to `+00:00` only inside the parse attempt,
and on parse failure the function returns the (already
timezone-normalized) string held in its local variable — not the
original argument. -/
def parse_date (date_str : List Char) : List Char :=
  if date_str = [] then []
  else
    let normalized := tzNormalize date_str
    match fromisoformat (replaceAll ("Z".toList) ("+00:00".toList) normalized) with
    | some ymd => formatYMD ymd
    | none => normalized

/-- C7 counterexample: on input "invalid+0000" the timezone
normalization rewrites the offset spelling before the parse attempt, so
the failing parse returns "invalid+00:00" — the claim's "original input
string unchanged" does not hold. -/
theorem claim7_counterexample :
    parse_date ("invalid+0000".toList) = ("invalid+00:00".toList)
      ∧ ("invalid+00:00".toList) ≠ ("invalid+0000".toList) := by
  exact ⟨by decide, by decide⟩

/-- C7 amended: for every input on which ISO-8601 parsing fails after
timezone-spelling normalization, `_parse_date` returns the
timezone-NORMALIZED input unchanged (a non-fatal passthrough, no raise);
this equals the original input exactly when the normalization step did
not rewrite a timezone spelling. -/
theorem claim7_parse_date_passthrough (s : List Char)
    (h : fromisoformat (replaceAll ("Z".toList) ("+00:00".toList) (tzNormalize s)) = none) :
    parse_date s = tzNormalize s := by
  unfold parse_date
  by_cases hs : s = []
  · subst hs; rfl
  · rw [if_neg hs]
    dsimp only
    rw [h]

/-- C7 witness: at the concrete input "invalid+0000" the parse attempt
fails and the function returns the timezone-normalized string. -/
theorem claim7_parse_date_passthrough_witness :
    fromisoformat (replaceAll ("Z".toList) ("+00:00".toList)
        (tzNormalize ("invalid+0000".toList))) = none
      ∧ parse_date ("invalid+0000".toList) = tzNormalize ("invalid+0000".toList) :=
  ⟨by decide, claim7_parse_date_passthrough ("invalid+0000".toList) (by decide)⟩
